import Mathlib

/-!
Verification development for the image-slide-deck-generator repository.

The live HTTP endpoint is `src/app/api/slides/route.js` (the UI posts to
`/api/slides` and reads the fields only this version produces); the file
`src/unnamed/part_001` contains two superseded versions of the same route,
the first of which validates the model name and checks error-sentinel
strings.  Both handlers are embedded below (`POSTv1` for the first document
of part_001, `POSTroute` for route.js), together with the Gemini utility
module `src/utils/gemini.js`.

External vendor calls (OpenAI / Gemini / Claude HTTP requests) are modelled
as oracle functions collected in an `Env` structure: `.ok` is the value the
JavaScript `await` would produce, `.error m` is a thrown exception whose
`message` is `m`.  Everything else is translated statement by statement
from the JavaScript source.
-/

/-- Line terminators of JavaScript regular expressions (the characters `.`
does not match and multiline `^`/`$` anchor around). -/
def isLineTerm (c : Char) : Bool :=
  c = '\n' || c = '\r' || c.toNat = 0x2028 || c.toNat = 0x2029

/-- The character class `\s` of JavaScript regular expressions, also the set
trimmed by `String.prototype.trim`. -/
def jsWhitespace (c : Char) : Bool :=
  c = ' ' || c = '\t' || c = '\n' || c = '\r' ||
  c.toNat = 0x0b || c.toNat = 0x0c || c.toNat = 0xa0 || c.toNat = 0x1680 ||
  (0x2000 ≤ c.toNat && c.toNat ≤ 0x200a) || c.toNat = 0x2028 ||
  c.toNat = 0x2029 || c.toNat = 0x202f || c.toNat = 0x205f ||
  c.toNat = 0x3000 || c.toNat = 0xfeff

/-- JavaScript `String.prototype.trim` on a character list. -/
def jsTrim (cs : List Char) : List Char :=
  ((cs.dropWhile jsWhitespace).reverse.dropWhile jsWhitespace).reverse

/-- JavaScript `String.prototype.trim`. -/
def jsTrimS (s : String) : String := String.mk (jsTrim s.data)

/-- Decides whether the first list is a prefix of the second. -/
def listIsPrefix : List Char → List Char → Bool
  | [], _ => true
  | _ :: _, [] => false
  | a :: as, b :: bs => a = b && listIsPrefix as bs

/-- Decides whether `pat` occurs as a contiguous sublist of the second
argument (JavaScript `String.prototype.includes`). -/
def listHasSub (pat : List Char) : List Char → Bool
  | [] => decide (pat = [])
  | c :: rest => listIsPrefix pat (c :: rest) || listHasSub pat rest

/-- JavaScript `s.startsWith(p)`. -/
def strStartsWith (s p : String) : Bool := listIsPrefix p.data s.data

/-- JavaScript `s.includes(pat)` (for the non-empty patterns used by the
source). -/
def sContains (s pat : String) : Bool := listHasSub pat.data s.data

/-- JavaScript `s.split(sep)` for a one-character separator. -/
def splitOnChar (c : Char) : List Char → List (List Char)
  | [] => [[]]
  | x :: xs =>
    match splitOnChar c xs with
    | [] => [[]]
    | h :: t => if x = c then [] :: h :: t else (x :: h) :: t

/-- JavaScript `parts.join(sep)` on character lists. -/
def joinWithSep (sep : List Char) (parts : List (List Char)) : List Char :=
  (List.intersperse sep parts).flatten

/-- JavaScript `description.split(' ').slice(0, 5).join(' ')` from
`generateImageContext` in route.js. -/
def firstFiveWords (d : String) : String :=
  String.mk (joinWithSep [' '] ((splitOnChar ' ' d.data).take 5))

/-- JavaScript `description.split('.')[0]` from `generateImageContext` in
route.js. -/
def beforeFirstDot (d : String) : String :=
  String.mk (match splitOnChar '.' d.data with | [] => [] | h :: _ => h)

/-- A thrown JavaScript exception: its `message`, and its `stack` when one
is observable.  For `new Error(msg)` thrown by the route itself the stack
text is environment dependent, so it is modelled as absent and the
`error.stack || error.message` fallback in the catch branch picks the
message. -/
structure JsError where
  message : String
  stack : Option String
deriving DecidableEq

/-- Slide records pushed by the part_001 handler (no message/caption
fields). -/
structure SlideV1 where
  title : String
  content : String
  fullExplanation : String
deriving DecidableEq

/-- Slide records pushed by the route.js handler. -/
structure SlideV2 where
  title : String
  content : String
  fullExplanation : String
  originalMessage : String
  originalCaption : String
deriving DecidableEq

/-- An HTTP response of either handler: 200 with slides, 400 with an error
message, or 500 with an error message. -/
inductive ApiResp (α : Type) where
  | success (slides : List α)
  | clientError (msg : String)
  | serverError (msg : String)
deriving DecidableEq

/-- The HTTP status code of a response. -/
def ApiResp.status {α : Type} : ApiResp α → Nat
  | .success _ => 200
  | .clientError _ => 400
  | .serverError _ => 500

/-- The parsed JSON request body.  `images`/`messages`/`captions` are `none`
when the field is absent or not an array; `model` is `none` when absent.
The handlers read only `images` and `model`; `messages` and `captions` are
carried because the client sends them (page.js) and the specification
mentions them. -/
structure SlideRequest where
  images : Option (List String)
  model : Option String
  messages : Option (List String)
  captions : Option (List String)

/-- Oracles for every external vendor call made by the source.  Each field
returns `.ok` with the value the awaited call produces, or `.error` with
the message of the exception it throws. -/
structure Env where
  /-- whether `process.env.GOOGLE_API_KEY` is set (`initGoogleAI` throws
  otherwise). -/
  hasGoogleKey : Bool
  /-- `model.generateContent` + `response.text()` inside
  `analyzeImageWithGemini`, per attempt number (0 = first try). -/
  geminiGenerate : String → Nat → Except String String
  /-- the vendor call inside `summarizeWithGemini` of utils/gemini.js,
  applied to (text, message, caption). -/
  geminiSummarizeGenerate : String → String → String → Except String String
  /-- the vendor call inside `quickAnalyzeImageWithGemini`. -/
  geminiQuickGenerate : String → Except String String
  /-- the body of the local `summarizeWithGemini` of route.js up to and
  including `response.text()`.  At runtime this body always throws
  (`initGoogleAI` is not defined in route.js's module scope), which the
  oracle can represent as `.error "initGoogleAI is not defined"`; the model
  keeps the general shape of the code. -/
  geminiLocalSummarize : String → String → String → Except String String
  /-- `openai.createChatCompletion` + `response.json()` inside
  `explainWithOpenAI`: `.ok none` when `data.error` is set or no message
  content is present, `.ok (some c)` for content `c`. -/
  openaiExplainApi : String → Except String (Option String)
  /-- the vendor call inside part_001's one-argument
  `summarizeWithOpenAI`: `.ok none` when no content is present. -/
  openaiSummarizeApiV1 : String → Except String (Option String)
  /-- the streamed result of route.js's `summarizeWithOpenAI`, applied to
  (explanation, message, caption). -/
  openaiSummarizeStream : String → String → String → Except String String
  /-- the streamed result inside `quickDescribeWithOpenAI`. -/
  openaiQuick : String → Except String String
  /-- Modelled from the spec: `src/utils/anthropic.js` is not in the source
  tree.  Per the spec, the Claude adapter's explain operation returns the
  vendor text or a sentinel string starting with "Error" and never
  throws. -/
  claudeAnalyze : String → String
  /-- Modelled from the spec: the Claude summarize operation of the missing
  `src/utils/anthropic.js`, one-argument form used by part_001. -/
  claudeSummarizeV1 : String → String
  /-- Modelled from the spec: the Claude summarize operation of the missing
  `src/utils/anthropic.js`, (explanation, message, caption) form used by
  route.js. -/
  claudeSummarize : String → String → String → String
  /-- `fetch(image_url)` + `blob` + `blobToBase64` in route.js for inputs
  that are not data URLs. -/
  fetchToBase64 : String → Except JsError String

/-! ### utils/gemini.js: `extractBase64FromDataUrl` -/

/-- The JavaScript regular expression `^data:([^;]+);base64,(.+)$` (no
flags): `[^;]+` necessarily captures up to the first `;`, after which the
literal `;base64,` must follow, and `(.+)$` requires at least one character
and no line terminators up to the end of the string.  Returns the two
capture groups (mime type, payload). -/
def matchDataUrlRegex (cs : List Char) : Option (List Char × List Char) :=
  if listIsPrefix ("data:".data) cs then
    let rest := cs.drop 5
    let mime := rest.takeWhile (fun c => !(c = ';' : Bool))
    if mime.length = 0 then none
    else
      let after := rest.drop mime.length
      if listIsPrefix (";base64,".data) after then
        let payload := after.drop 8
        if payload.length ≥ 1 && payload.all (fun c => !(isLineTerm c)) then
          some (mime, payload)
        else none
      else none
  else none

/-- `extractBase64FromDataUrl` of utils/gemini.js.  `.ok (data?, mime?)`
is the returned object (`none` = JavaScript `null`); `.error` is the
thrown `Error('Invalid data URL format')`. -/
def extractBase64FromDataUrl (dataUrl : String) :
    Except String (Option String × Option String) :=
  if dataUrl = "" then .ok (none, none)
  else if !(sContains dataUrl ";base64,") then .ok (some dataUrl, some "image/jpeg")
  else
    match matchDataUrlRegex dataUrl.data with
    | none => .error "Invalid data URL format"
    | some (mime, payload) => .ok (some (String.mk payload), some (String.mk mime))

/-! ### utils/gemini.js: `analyzeImageWithGemini` with its retry loop -/

/-- The retry guard of `analyzeImageWithGemini`: the error message contains
one of the transient-network markers. -/
def isTransientErr (m : String) : Bool :=
  sContains m "fetch failed" || sContains m "network" || sContains m "timeout" ||
  sContains m "ECONNRESET" || sContains m "ETIMEDOUT"

/-- The error classification of the catch branch of
`analyzeImageWithGemini`. -/
def classifyGeminiError (m : String) : String :=
  if sContains m "API key" then
    "Error analyzing image with Gemini: Invalid or missing API key. Please check your environment variables."
  else if sContains m "permission" || sContains m "access" then
    "Error analyzing image with Gemini: Permission denied. Your API key may not have access to this model."
  else if sContains m "quota" || sContains m "limit" then
    "Error analyzing image with Gemini: API quota exceeded. Please try again later."
  else if sContains m "network" || sContains m "connect" || sContains m "fetch failed" then
    "Error analyzing image with Gemini: Network error. Please check your internet connection or try a different AI model. Error details: " ++ m
  else
    "Error analyzing image with Gemini: " ++ m

/-- The try body of one attempt of `analyzeImageWithGemini`: `initGoogleAI`
(throws when the key is absent), `extractBase64FromDataUrl` (its exception
propagates), the `!data` guard (`throw new Error("Invalid image data")`),
then the vendor call. -/
def geminiTryBody (env : Env) (img : String) (attempt : Nat) : Except String String :=
  if !env.hasGoogleKey then
    .error "Google API key is not defined in environment variables (GOOGLE_API_KEY)"
  else
    match extractBase64FromDataUrl img with
    | .error m => .error m
    | .ok (none, _) => .error "Invalid image data"
    | .ok (some _, _) => env.geminiGenerate img attempt

/-- The recursive `attemptAnalysis` closure of `analyzeImageWithGemini`.
Returns the result string together with the list of backoff waits (in
milliseconds) performed before each retry.  The recursion is bounded by the
fuel argument; the caller passes fuel 2 = MAX_RETRIES, which the
`retryCount < 2` guard makes exactly sufficient, so the fuel-exhaustion
branch is unreachable. -/
def attemptAnalysis (env : Env) (img : String) : Nat → Nat → String × List Nat
  | fuel, retryCount =>
    match geminiTryBody env img retryCount with
    | .ok s => (s, [])
    | .error m =>
      if retryCount < 2 && isTransientErr m then
        match fuel with
        | 0 => (classifyGeminiError m, [])
        | f + 1 =>
          let r := attemptAnalysis env img f (retryCount + 1)
          (r.1, 1000 * (retryCount + 1) :: r.2)
      else (classifyGeminiError m, [])

/-- `analyzeImageWithGemini` together with its observable backoff trace. -/
def analyzeImageWithGeminiRun (env : Env) (img : String) : String × List Nat :=
  attemptAnalysis env img 2 0

/-- `analyzeImageWithGemini` of utils/gemini.js. -/
def analyzeImageWithGemini (env : Env) (img : String) : String :=
  (analyzeImageWithGeminiRun env img).1

/-! ### utils/gemini.js: `summarizeWithGemini` and
`quickAnalyzeImageWithGemini` -/

/-- The catch branch of `summarizeWithGemini` of utils/gemini.js. -/
def summarizeGeminiCatch (m : String) : String :=
  if sContains m "API key" then
    "Error summarizing with Gemini: Invalid or missing API key. Please check your environment variables."
  else if sContains m "permission" || sContains m "access" then
    "Error summarizing with Gemini: Permission denied. Your API key may not have access to this model."
  else if sContains m "quota" || sContains m "limit" then
    "Error summarizing with Gemini: API quota exceeded. Please try again later."
  else if sContains m "network" || sContains m "connect" then
    "Error summarizing with Gemini: Network error. Please check your internet connection."
  else
    "Error summarizing with Gemini: " ++ m

/-- `summarizeWithGemini` of utils/gemini.js (message and caption default to
the empty string at the call sites that omit them). -/
def summarizeWithGemini (env : Env) (text message caption : String) : String :=
  if !env.hasGoogleKey then
    summarizeGeminiCatch "Google API key is not defined in environment variables (GOOGLE_API_KEY)"
  else
    match env.geminiSummarizeGenerate text message caption with
    | .error m => summarizeGeminiCatch m
    | .ok s => s

/-- `quickAnalyzeImageWithGemini` of utils/gemini.js: the catch branch
returns "interesting image" for every failure. -/
def quickAnalyzeImageWithGemini (env : Env) (img : String) : String :=
  if !env.hasGoogleKey then "interesting image"
  else
    match extractBase64FromDataUrl img with
    | .error _ => "interesting image"
    | .ok (none, _) => "interesting image"
    | .ok (some _, _) =>
      match env.geminiQuickGenerate img with
      | .error _ => "interesting image"
      | .ok s => s

/-! ### The summary parser (`extractTitle`/`extractContent` of route.js,
`parseSummary` of part_001 — textually identical code) -/

/-- The tail of a match of `/^#\s*(.+)$/m` after the `#`: `\s*` greedily
consumes the maximal whitespace run, backtracking only as far as needed for
`(.+)$` to match (at least one non-line-terminator character, up to the
next line terminator or the end of the input, where multiline `$` holds).
Returns (capture group 1, the characters after the match) or `none` when
no backtracking choice succeeds. -/
def tryAt (rest : List Char) : Option (List Char × List Char) :=
  let ws := rest.takeWhile jsWhitespace
  let tail := rest.drop ws.length
  match tail with
  | _ :: _ =>
    let cap := tail.takeWhile (fun x => !(isLineTerm x))
    some (cap, tail.drop cap.length)
  | [] =>
    let revws := ws.reverse
    let termTail := revws.takeWhile isLineTerm
    match revws.drop termTail.length with
    | [] => none
    | x :: _ => some ([x], termTail.reverse)

/-- First-match search of `/^#\s*(.+)$/m`: scan left to right, a match can
begin only where `^` holds (start of input, or right after a line
terminator, tracked by the boolean) at a `#`.  Returns (characters before
the match, capture group 1, characters after the match). -/
def scanMatch : List Char → Bool → Option (List Char × List Char × List Char)
  | [], _ => none
  | c :: rest, lineStart =>
    if lineStart && c = '#' then
      match tryAt rest with
      | some (cap, aft) => some ([], cap, aft)
      | none =>
        match scanMatch rest (isLineTerm c) with
        | some (bef, cap, aft) => some (c :: bef, cap, aft)
        | none => none
    else
      match scanMatch rest (isLineTerm c) with
      | some (bef, cap, aft) => some (c :: bef, cap, aft)
      | none => none

/-- `extractTitle` of route.js: `summary.match(/^#\s*(.+)$/m)`, the trimmed
first capture, defaulting to "Untitled Slide". -/
def extractTitle (summary : String) : String :=
  match scanMatch summary.data true with
  | some (_, cap, _) => String.mk (jsTrim cap)
  | none => "Untitled Slide"

/-- `extractContent` of route.js: `summary.replace(/^#\s*.+$/m, '').trim()`
(the same first match, removed, then trimmed). -/
def extractContent (summary : String) : String :=
  match scanMatch summary.data true with
  | some (bef, _, aft) => String.mk (jsTrim (bef ++ aft))
  | none => String.mk (jsTrim summary.data)

/-- `parseSummary` of part_001 (textually identical in route.js):
`{ title, content }`. -/
def parseSummary (summary : String) : String × String :=
  (extractTitle summary, extractContent summary)

/-! ### OpenAI helpers shared by both handler versions -/

/-- `explainWithOpenAI` (identical in route.js and part_001): `data.error`
or missing content yields "No explanation generated", the catch branch
yields "Error generating explanation". -/
def explainWithOpenAI (call : Except String (Option String)) : String :=
  match call with
  | .error _ => "Error generating explanation"
  | .ok none => "No explanation generated"
  | .ok (some content) => content

/-- The one-argument `summarizeWithOpenAI` of part_001's first document:
missing content yields "No summary generated"; its catch branch rethrows
the exception. -/
def summarizeWithOpenAIv1 (env : Env) (explanation : String) : Except String String :=
  match env.openaiSummarizeApiV1 explanation with
  | .error e => .error e
  | .ok none => .ok "No summary generated"
  | .ok (some c) => .ok c

/-! ### The part_001 handler (`POSTv1`) -/

/-- The valid model list of part_001's first document. -/
def validModels : List String := ["openai", "gemini", "anthropic"]

/-- The 400 message for an invalid model:
`"Invalid model selected. Choose from: " + validModels.join(', ')`. -/
def invalidModelMsg : String :=
  "Invalid model selected. Choose from: " ++
    String.mk (joinWithSep (", ".data) (validModels.map String.data))

/-- The error-slide content used by both error paths of the part_001
loop. -/
def errContentV1 : String :=
  "There was an error processing this image. Please try again with another image or select a different AI model."

/-- The "Error Creating Slide" content of the part_001 loop. -/
def errCreatingContentV1 : String :=
  "There was an error creating this slide. Here\x27s the raw explanation instead."

/-- The image-URL normalization at the top of the part_001 loop body. -/
def normalizeImageV1 (img : String) : String :=
  if strStartsWith img "data:" then img else "data:image/jpeg;base64," ++ img

/-- Step 1 of the part_001 loop: the selected adapter's explain call
(`explanation` stays "" when the model matches no branch; only the
spec-modelled Claude adapter could throw, and per the spec it does not, so
all branches are `.ok`-valued except where the source can rethrow). -/
def explainStepV1 (env : Env) (model img : String) : Except String String :=
  if model = "openai" then .ok (explainWithOpenAI (env.openaiExplainApi (normalizeImageV1 img)))
  else if model = "gemini" then .ok (analyzeImageWithGemini env img)
  else if model = "anthropic" then .ok (env.claudeAnalyze img)
  else .ok ""

/-- Step 2 of the part_001 loop: the selected adapter's summarize call
(part_001's `summarizeWithOpenAI` rethrows vendor exceptions). -/
def summarizeStepV1 (env : Env) (model explanation : String) : Except String String :=
  if model = "openai" then summarizeWithOpenAIv1 env explanation
  else if model = "gemini" then .ok (summarizeWithGemini env explanation "" "")
  else if model = "anthropic" then .ok (env.claudeSummarizeV1 explanation)
  else .ok ""

/-- The per-image loop body of part_001's POST: explain, sentinel check
("Error" prefix or "No explanation generated"), summarize, sentinel check
("Error" prefix), parse; the surrounding catch converts an exception into
an "Error Processing Image" slide carrying
`error.message || "Unknown error"`. -/
def processOneV1 (env : Env) (model img : String) : SlideV1 :=
  match explainStepV1 env model img with
  | .error e =>
    { title := "Error Processing Image", content := errContentV1,
      fullExplanation := if e = "" then "Unknown error" else e }
  | .ok explanation =>
    if strStartsWith explanation "Error" || explanation = "No explanation generated" then
      { title := "Error Processing Image", content := errContentV1,
        fullExplanation := explanation }
    else
      match summarizeStepV1 env model explanation with
      | .error e =>
        { title := "Error Processing Image", content := errContentV1,
          fullExplanation := if e = "" then "Unknown error" else e }
      | .ok summary =>
        if strStartsWith summary "Error" then
          { title := "Error Creating Slide", content := errCreatingContentV1,
            fullExplanation := explanation }
        else
          { title := (parseSummary summary).1, content := (parseSummary summary).2,
            fullExplanation := explanation }

/-- The POST handler of part_001's first document.  The argument is the
result of `await req.json()` (`.error` = the outer catch with
`error.message || "An error occurred processing the images"`).  `model`
defaults to "openai" only when absent (destructuring default). -/
def POSTv1 (env : Env) (body : Except String SlideRequest) : ApiResp SlideV1 :=
  match body with
  | .error m =>
    .serverError (if m = "" then "An error occurred processing the images" else m)
  | .ok req =>
    match req.images with
    | none => .clientError "No images provided"
    | some images =>
      if images.length = 0 then .clientError "No images provided"
      else
        let model := req.model.getD "openai"
        if !(validModels.contains model) then .clientError invalidModelMsg
        else .success (images.map (processOneV1 env model))

/-! ### The route.js handler (`POSTroute`) -/

/-- `quickDescribeWithOpenAI` of route.js: trimmed stream result, with
"interesting image" for an empty result or any exception. -/
def quickDescribeWithOpenAI (env : Env) (img : String) : String :=
  match env.openaiQuick img with
  | .error _ => "interesting image"
  | .ok s => if jsTrimS s = "" then "interesting image" else jsTrimS s

/-- `quickDescribeWithGemini` of route.js. -/
def quickDescribeWithGemini (env : Env) (img : String) : String :=
  let d := quickAnalyzeImageWithGemini env img
  if jsTrimS d = "" then "interesting image" else jsTrimS d

/-- `quickDescribeWithClaude` of route.js (a placeholder in the source). -/
def quickDescribeWithClaude (_img : String) : String := "interesting image"

/-- The context record returned by `generateImageContext` of route.js. -/
structure Ctx where
  message : String
  caption : String
  description : String
deriving DecidableEq

/-- `generateImageContext` of route.js.  The quick-describe helpers each
swallow their own failures, so the catch branch of the source (fixed
default strings) is unreachable and the try body is total. -/
def generateImageContext (env : Env) (model img : String) : Ctx :=
  let description :=
    if model = "openai" then quickDescribeWithOpenAI env img
    else if model = "gemini" then quickDescribeWithGemini env img
    else if model = "anthropic" then quickDescribeWithClaude img
    else ""
  { message := "Let\x27s explore the details and significance of this " ++
      firstFiveWords description ++ "...",
    caption := beforeFirstDot description ++ ".",
    description := description }

/-- The catch branch of route.js's `summarizeWithOpenAI` (a canned slide
text, not a rethrow as in part_001). -/
def openaiRouteCatch (caption msg : String) : String :=
  "# Analysis of the Image\n\nThis image appears to show " ++
  (if caption = "" then "interesting content" else caption) ++
  ".\n\n- The image contains details that would be analyzed further with a working connection to OpenAI.\n- Unfortunately, there was an error connecting to the AI service.\n- Try again or select a different AI model.\n\nError details: " ++ msg

/-- `summarizeWithOpenAI` of route.js (three arguments, canned fallback on
exception). -/
def summarizeWithOpenAIRoute (env : Env) (explanation message caption : String) : String :=
  match env.openaiSummarizeStream explanation message caption with
  | .ok s => s
  | .error m => openaiRouteCatch caption m

/-- The short-summary fallback of route.js's local `summarizeWithGemini`. -/
def geminiRouteShort (caption : String) : String :=
  "# Analysis of the Image\n\nThis image appears to show " ++
  (if caption = "" then "interesting content" else caption) ++
  ".\n\n- The image contains elements that would be explained in more detail with proper AI analysis.\n- Unfortunately, the AI generated a limited response.\n- The image appears to be a " ++
  (if caption = "" then "visual that requires further analysis" else caption) ++
  ".\n\nTry selecting a different AI model for better results."

/-- The catch branch of route.js's local `summarizeWithGemini`. -/
def geminiRouteCatch (caption msg : String) : String :=
  "# Analysis of the Image\n\nThis image appears to show " ++
  (if caption = "" then "interesting content" else caption) ++
  ".\n\n- The image contains elements that would be analyzed with a working connection to Gemini.\n- Unfortunately, there was an error connecting to the AI service.\n- Try again or select a different AI model.\n\nError details: " ++ msg

/-- The local `summarizeWithGemini` of route.js: canned fallback on
exception, canned fallback when the summary has fewer than 50
characters. -/
def summarizeWithGeminiRoute (env : Env) (explanation message caption : String) : String :=
  match env.geminiLocalSummarize explanation message caption with
  | .error m => geminiRouteCatch caption m
  | .ok s => if s.length < 50 then geminiRouteShort caption else s

/-- `processImageWithOpenAI` of route.js: its callees handle their own
failures, so its catch-and-rethrow branch is unreachable and the function
is total. -/
def processImageWithOpenAI (env : Env) (base64Image message caption : String) : SlideV2 :=
  let explanation := explainWithOpenAI (env.openaiExplainApi base64Image)
  let summary := summarizeWithOpenAIRoute env explanation message caption
  { title := extractTitle summary, content := extractContent summary,
    fullExplanation := explanation,
    originalMessage := message, originalCaption := caption }

/-- `processImageWithGemini` of route.js: Gemini explain, full fallback to
`processImageWithOpenAI` on the Gemini-specific explain sentinel, Gemini
summarize, OpenAI summarize fallback on the Gemini summarize sentinel.
The callees handle their own failures, so the catch branch (which also
falls back to OpenAI) is unreachable. -/
def processImageWithGemini (env : Env) (base64Image message caption : String) : SlideV2 :=
  let explanation := analyzeImageWithGemini env base64Image
  if strStartsWith explanation "Error analyzing image with Gemini:" then
    processImageWithOpenAI env base64Image message caption
  else
    let summary := summarizeWithGeminiRoute env explanation message caption
    if strStartsWith summary "Error summarizing with Gemini:" then
      let openAiSummary := summarizeWithOpenAIRoute env explanation message caption
      { title := extractTitle openAiSummary, content := extractContent openAiSummary,
        fullExplanation := explanation,
        originalMessage := message, originalCaption := caption }
    else
      { title := extractTitle summary, content := extractContent summary,
        fullExplanation := explanation,
        originalMessage := message, originalCaption := caption }

/-- The image normalization at the top of the route.js loop body: data URLs
pass through, other strings go through `fetch`/`blobToBase64` (which can
throw). -/
def resolveBase64 (env : Env) (image_url : String) : Except JsError String :=
  if strStartsWith image_url "data:" then .ok image_url
  else env.fetchToBase64 image_url

/-- Helper building the `new Error(msg)` values thrown inside the route.js
loop body. -/
def jsNewError (msg : String) : JsError := { message := msg, stack := none }

/-- The try body of the route.js loop: resolve the image, generate context,
run the selected provider pipeline, `throw` on empty explanation or empty
summary, then assemble the slide (re-extracting title/content only when
the title is empty). -/
def processOneV2Try (env : Env) (model image_url : String) : Except JsError SlideV2 :=
  match resolveBase64 env image_url with
  | .error e => .error e
  | .ok base64Image =>
    let ctx := generateImageContext env model base64Image
    let message := ctx.message
    let caption := ctx.caption
    let step :=
      if model = "openai" then
        let r := processImageWithOpenAI env base64Image message caption
        (r.fullExplanation, r.content, r.title)
      else if model = "gemini" then
        let r := processImageWithGemini env base64Image message caption
        (r.fullExplanation, r.content, r.title)
      else if model = "anthropic" then
        (env.claudeAnalyze base64Image, "", "")
      else ("", "", "")
    let explanation := step.1
    if explanation = "" then
      .error (jsNewError ("Failed to analyze image with " ++ model))
    else
      let summary :=
        if model = "anthropic" then env.claudeSummarize explanation message caption
        else step.2.1
      if summary = "" then
        .error (jsNewError ("Failed to summarize explanation with " ++ model))
      else
        let title0 := step.2.2
        let tc :=
          if title0 = "" then (extractTitle summary, extractContent summary)
          else (title0, summary)
        .ok { title := tc.1, content := tc.2, fullExplanation := explanation,
              originalMessage := message, originalCaption := caption }

/-- The catch branch of the route.js loop body. -/
def catchSlideV2 (e : JsError) : SlideV2 :=
  { title := "Error Processing Image",
    content := "There was an error processing this image: " ++ e.message,
    fullExplanation := "Error details: " ++ (e.stack.getD e.message),
    originalMessage := "", originalCaption := "" }

/-- The per-image loop body of route.js's POST. -/
def processOneV2 (env : Env) (model image_url : String) : SlideV2 :=
  match processOneV2Try env model image_url with
  | .ok s => s
  | .error e => catchSlideV2 e

/-- The `data.model || "openai"` resolution of route.js: absent or empty
(falsy) becomes "openai"; no further validation. -/
def routeModel (m : Option String) : String :=
  match m with
  | none => "openai"
  | some s => if s = "" then "openai" else s

/-- The POST handler of src/app/api/slides/route.js.  There is no model
validation: any model string proceeds to the loop. -/
def POSTroute (env : Env) (body : Except JsError SlideRequest) : ApiResp SlideV2 :=
  match body with
  | .error e => .serverError ("Server error: " ++ e.message)
  | .ok req =>
    match req.images with
    | none => .clientError "No images provided"
    | some images =>
      if images.length = 0 then .clientError "No images provided"
      else .success (images.map (processOneV2 env (routeModel req.model)))

/-! ### Declarative characterization of the first `/^#\s*(.+)$/m` match -/

/-- Position `n` of `cs` can start a match of `/^#\s*(.+)$/m`: `^` holds
there (position 0 under the initial line-start flag `ls`, otherwise the
previous character is a line terminator), the character is `#`, and the
rest of the pattern matches. -/
def matchableFrom (ls : Bool) (cs : List Char) (n : Nat) : Bool :=
  (if n = 0 then ls else
    match cs[n - 1]? with
    | some c => isLineTerm c
    | none => false) &&
  (match cs[n]? with
   | some c => decide (c = '#')
   | none => false) &&
  (tryAt (cs.drop (n + 1))).isSome

/-! ### Concrete environments used by the closed witness and counterexample
statements -/

/-- An environment whose OpenAI oracles succeed with fixed texts, whose
Google key is absent (so every Gemini vendor path fails with the key
error), and whose fetch succeeds. -/
def envHappy : Env :=
  { hasGoogleKey := false,
    geminiGenerate := fun _ _ => .error "fetch failed",
    geminiSummarizeGenerate := fun _ _ _ => .ok "# G\n- g",
    geminiQuickGenerate := fun _ => .ok "a quick look",
    geminiLocalSummarize := fun _ _ _ => .error "initGoogleAI is not defined",
    openaiExplainApi := fun _ => .ok (some "A red bicycle leaning against a brick wall."),
    openaiSummarizeApiV1 := fun _ => .ok (some "# Red Bicycle\n- Leaning against brick\n- Suggests urban setting"),
    openaiSummarizeStream := fun _ _ _ => .ok "# Red Bicycle\n- Leaning against brick\n- Suggests urban setting",
    openaiQuick := fun _ => .ok "A red bicycle",
    claudeAnalyze := fun _ => "A claude explanation.",
    claudeSummarizeV1 := fun _ => "# C\n- c",
    claudeSummarize := fun _ _ _ => "# C\n- c",
    fetchToBase64 := fun _ => .ok "data:fetched" }

/-- An environment where the OpenAI explain vendor call throws (so
`explainWithOpenAI` returns the "Error generating explanation" sentinel)
while summarization succeeds, and where fetching a non-data URL throws. -/
def envExplainFail : Env :=
  { envHappy with
    openaiExplainApi := fun _ => .error "boom",
    openaiSummarizeStream := fun _ _ _ => .ok "# Red Bicycle\n- Leaning",
    fetchToBase64 := fun _ => .error ⟨"fetch failed", none⟩ }

/-- An environment where the OpenAI explain step succeeds but both
summarize oracles return a string starting with "Error". -/
def envSumSentinel : Env :=
  { envHappy with
    openaiExplainApi := fun _ => .ok (some "A fine explanation."),
    openaiSummarizeApiV1 := fun _ => .ok (some "Error: vendor refused"),
    openaiSummarizeStream := fun _ _ _ => .ok "Error: vendor refused" }

/-! ### Helper lemmas -/

theorem listIsPrefix_self_append (p t : List Char) : listIsPrefix p (p ++ t) = true := by
  induction p with
  | nil => rfl
  | cons c cs ih => simp [listIsPrefix, ih]

theorem listIsPrefix_extend (p a b : List Char) (h : listIsPrefix p a = true) :
    listIsPrefix p (a ++ b) = true := by
  induction p generalizing a with
  | nil => rfl
  | cons c cs ih =>
    cases a with
    | nil => simp [listIsPrefix] at h
    | cons d as =>
      simp only [listIsPrefix, Bool.and_eq_true, decide_eq_true_eq] at h
      simp only [List.cons_append, listIsPrefix, Bool.and_eq_true, decide_eq_true_eq]
      exact ⟨h.1, ih as h.2⟩

theorem classifyGeminiError_sentinel (m : String) :
    strStartsWith (classifyGeminiError m) "Error analyzing image with Gemini:" = true := by
  unfold classifyGeminiError
  split_ifs <;>
    first
      | decide
      | (unfold strStartsWith
         rw [String.data_append]
         exact listIsPrefix_extend _ _ _ (by decide))

/-- C8: `analyzeImageWithGemini` always terminates with at most 3 attempts
(the initial call plus at most 2 retries); every retry is triggered only by
a transient-network error message, the wait before the i-th retry is
1000 * i milliseconds, and a terminal failure yields a classified sentinel
string (prefix "Error analyzing image with Gemini:") instead of a thrown
exception. -/
theorem C8_gemini_retry_policy (env : Env) (img : String) :
    ∃ k, k ≤ 2 ∧
      (analyzeImageWithGeminiRun env img).2 = (List.range k).map (fun i => 1000 * (i + 1)) ∧
      (∀ j, j < k → ∃ m, geminiTryBody env img j = .error m ∧ isTransientErr m = true) ∧
      ((∃ s, geminiTryBody env img k = .ok s ∧ analyzeImageWithGemini env img = s) ∨
       (∃ m, geminiTryBody env img k = .error m ∧
          analyzeImageWithGemini env img = classifyGeminiError m ∧
          strStartsWith (classifyGeminiError m) "Error analyzing image with Gemini:" = true ∧
          (k = 2 ∨ isTransientErr m = false))) := by
  cases h0 : geminiTryBody env img 0 with
  | ok s0 =>
    refine ⟨0, by omega, ?_, ?_, ?_⟩
    · simp [analyzeImageWithGeminiRun, attemptAnalysis, h0]
    · intro j hj; omega
    · exact .inl ⟨s0, h0, by simp [analyzeImageWithGemini, analyzeImageWithGeminiRun, attemptAnalysis, h0]⟩
  | error m0 =>
    by_cases ht0 : isTransientErr m0 = true
    · cases h1 : geminiTryBody env img 1 with
      | ok s1 =>
        refine ⟨1, by omega, ?_, ?_, ?_⟩
        · simp [analyzeImageWithGeminiRun, attemptAnalysis, h0, h1, ht0]
          decide
        · intro j hj
          have : j = 0 := by omega
          subst this
          exact ⟨m0, h0, ht0⟩
        · exact .inl ⟨s1, h1, by simp [analyzeImageWithGemini, analyzeImageWithGeminiRun, attemptAnalysis, h0, h1, ht0]⟩
      | error m1 =>
        by_cases ht1 : isTransientErr m1 = true
        · cases h2 : geminiTryBody env img 2 with
          | ok s2 =>
            refine ⟨2, by omega, ?_, ?_, ?_⟩
            · simp [analyzeImageWithGeminiRun, attemptAnalysis, h0, h1, h2, ht0, ht1]
              decide
            · intro j hj
              interval_cases j
              · exact ⟨m0, h0, ht0⟩
              · exact ⟨m1, h1, ht1⟩
            · exact .inl ⟨s2, h2, by simp [analyzeImageWithGemini, analyzeImageWithGeminiRun, attemptAnalysis, h0, h1, h2, ht0, ht1]⟩
          | error m2 =>
            refine ⟨2, by omega, ?_, ?_, ?_⟩
            · simp [analyzeImageWithGeminiRun, attemptAnalysis, h0, h1, h2, ht0, ht1]
              decide
            · intro j hj
              interval_cases j
              · exact ⟨m0, h0, ht0⟩
              · exact ⟨m1, h1, ht1⟩
            · exact .inr ⟨m2, h2,
                by simp [analyzeImageWithGemini, analyzeImageWithGeminiRun, attemptAnalysis, h0, h1, h2, ht0, ht1],
                classifyGeminiError_sentinel m2, .inl rfl⟩
        · refine ⟨1, by omega, ?_, ?_, ?_⟩
          · simp [analyzeImageWithGeminiRun, attemptAnalysis, h0, h1, ht0, ht1]
            decide
          · intro j hj
            have : j = 0 := by omega
            subst this
            exact ⟨m0, h0, ht0⟩
          · exact .inr ⟨m1, h1,
              by simp [analyzeImageWithGemini, analyzeImageWithGeminiRun, attemptAnalysis, h0, h1, ht0, ht1],
              classifyGeminiError_sentinel m1, .inr (by simpa using ht1)⟩
    · refine ⟨0, by omega, ?_, ?_, ?_⟩
      · simp [analyzeImageWithGeminiRun, attemptAnalysis, h0, ht0]
      · intro j hj; omega
      · exact .inr ⟨m0, h0,
          by simp [analyzeImageWithGemini, analyzeImageWithGeminiRun, attemptAnalysis, h0, ht0],
          classifyGeminiError_sentinel m0, .inr (by simpa using ht0)⟩

theorem POSTv1_valid_success (env : Env) (req : SlideRequest) (images : List String)
    (model : String) (h1 : req.images = some images) (h2 : images.length ≠ 0)
    (h3 : req.model.getD "openai" = model) (h4 : validModels.contains model = true) :
    POSTv1 env (.ok req) = .success (images.map (processOneV1 env model)) := by
  have h4m : model ∈ validModels := by simpa using h4
  simp [POSTv1, h1, h2, h3, h4m]

theorem POSTroute_valid_success (env : Env) (req : SlideRequest) (images : List String)
    (h1 : req.images = some images) (h2 : images.length ≠ 0) :
    POSTroute env (.ok req) = .success (images.map (processOneV2 env (routeModel req.model))) := by
  simp [POSTroute, h1, h2]

/-- C1: for every request that passes input validation, both POST handler
versions return status 200 with a slides array of the same length as the
images array, where the slide at index i is the one produced from the image
at index i (so slots are never dropped or reordered; per-image failures
only change what `processOneV1`/`processOneV2` return for that slot, which
is always exactly one slide). -/
theorem C1_batch_length_and_order (env : Env) (req : SlideRequest) (images : List String)
    (model : String) (h1 : req.images = some images) (h2 : 0 < images.length)
    (h3 : req.model.getD "openai" = model) (h4 : validModels.contains model = true) :
    (∃ slides, POSTv1 env (.ok req) = .success slides ∧
      (POSTv1 env (.ok req)).status = 200 ∧ slides.length = images.length ∧
      ∀ i : Nat, slides[i]? = (images[i]?).map (processOneV1 env model)) ∧
    (∃ slides, POSTroute env (.ok req) = .success slides ∧
      (POSTroute env (.ok req)).status = 200 ∧ slides.length = images.length ∧
      ∀ i : Nat, slides[i]? = (images[i]?).map (processOneV2 env (routeModel req.model))) := by
  have h2' : images.length ≠ 0 := by omega
  have e1 := POSTv1_valid_success env req images model h1 h2' h3 h4
  have e2 := POSTroute_valid_success env req images h1 h2'
  constructor
  · exact ⟨_, e1, by simp [e1, ApiResp.status], by simp, fun i => by simp⟩
  · exact ⟨_, e2, by simp [e2, ApiResp.status], by simp, fun i => by simp⟩

/-- C1 witness: a concrete valid two-image request is answered with status
200 by both handler versions. -/
theorem C1_batch_length_and_order_witness :
    (POSTv1 envHappy (.ok ⟨some ["data:a", "plain"], some "openai", none, none⟩)).status = 200 ∧
    (POSTroute envHappy (.ok ⟨some ["data:a", "plain"], some "openai", none, none⟩)).status = 200 := by
  obtain ⟨⟨s1, hs1, hst1, hl1, hp1⟩, ⟨s2, hs2, hst2, hl2, hp2⟩⟩ :=
    C1_batch_length_and_order envHappy ⟨some ["data:a", "plain"], some "openai", none, none⟩
      ["data:a", "plain"] "openai" rfl (by decide) rfl (by decide)
  exact ⟨hst1, hst2⟩

/-- With a model string matching no provider branch, the route.js loop body
always lands in its catch branch ("Failed to analyze image with ..."). -/
theorem processOneV2_invalid_model (env : Env) (model img : String)
    (h1 : model ≠ "openai") (h2 : model ≠ "gemini") (h3 : model ≠ "anthropic") :
    (processOneV2 env model img).title = "Error Processing Image" := by
  unfold processOneV2 processOneV2Try
  cases hr : resolveBase64 env img with
  | error e => simp [hr, catchSlideV2]
  | ok b => simp [hr, h1, h2, h3, catchSlideV2, jsNewError]

/-- C2 (amended): the part_001 handler answers a request whose model string
is outside {openai, gemini, anthropic} with status 400 and an error listing
the valid choices before any image is touched; the live route.js handler
has no such validation — it answers status 200, every slot being an
"Error Processing Image" slide. -/
theorem C2_model_validation_amended :
    (∀ (env : Env) (req : SlideRequest) (images : List String) (model : String),
      req.images = some images → images.length ≠ 0 → req.model.getD "openai" = model →
      validModels.contains model = false →
      POSTv1 env (.ok req) = .clientError invalidModelMsg ∧
      (POSTv1 env (.ok req)).status = 400 ∧
      invalidModelMsg = "Invalid model selected. Choose from: openai, gemini, anthropic") ∧
    (∀ (env : Env) (req : SlideRequest) (images : List String) (model : String),
      req.images = some images → images.length ≠ 0 → routeModel req.model = model →
      validModels.contains model = false →
      ∃ slides, POSTroute env (.ok req) = .success slides ∧
        (POSTroute env (.ok req)).status = 200 ∧ slides.length = images.length ∧
        ∀ (i : Nat) (s : SlideV2), slides[i]? = some s → s.title = "Error Processing Image") := by
  constructor
  · intro env req images model h1 h2 h3 h4
    have h4m : model ∉ validModels := by simpa using h4
    refine ⟨?_, ?_, by decide⟩
    · simp [POSTv1, h1, h2, h3, h4m]
    · simp [POSTv1, h1, h2, h3, h4m, ApiResp.status]
  · intro env req images model h1 h2 h3 h4
    have e2 := POSTroute_valid_success env req images h1 h2
    have hm : model ≠ "openai" ∧ model ≠ "gemini" ∧ model ≠ "anthropic" := by
      simp [validModels] at h4
      tauto
    refine ⟨_, e2, by simp [e2, ApiResp.status], by simp, ?_⟩
    intro i s hs
    rw [List.getElem?_map] at hs
    cases hI : images[i]? with
    | none => rw [hI, Option.map_none'] at hs; exact absurd hs (by simp)
    | some img =>
      rw [hI] at hs
      simp only [Option.map_some'] at hs
      subst h3
      have heq := processOneV2_invalid_model env (routeModel req.model) img hm.1 hm.2.1 hm.2.2
      obtain rfl : processOneV2 env (routeModel req.model) img = s := by
        exact Option.some.inj hs
      exact heq

/-- C2 counterexample: the live route.js POST handler answers a request
with the unknown model "bogus" with status 200 (not 400) and a processed
slides array, refuting the claim for the deployed endpoint. -/
theorem C2_model_validation_counterexample :
    (POSTroute envHappy (.ok ⟨some ["data:x"], some "bogus", none, none⟩)).status = 200 ∧
    (POSTroute envHappy (.ok ⟨some ["data:x"], some "bogus", none, none⟩)).status ≠ 400 ∧
    POSTroute envHappy (.ok ⟨some ["data:x"], some "bogus", none, none⟩) =
      .success [⟨"Error Processing Image",
        "There was an error processing this image: Failed to analyze image with bogus",
        "Error details: Failed to analyze image with bogus", "", ""⟩] := by
  refine ⟨rfl, by decide, rfl⟩

/-- C2 witness: the amended claim applied to a concrete request with the
unknown model "grok". -/
theorem C2_model_validation_witness :
    POSTv1 envHappy (.ok ⟨some ["data:x"], some "grok", none, none⟩) = .clientError invalidModelMsg ∧
    (POSTroute envHappy (.ok ⟨some ["data:x"], some "grok", none, none⟩)).status = 200 := by
  obtain ⟨hA, hB, hC⟩ := C2_model_validation_amended.1 envHappy ⟨some ["data:x"], some "grok", none, none⟩
    ["data:x"] "grok" rfl (by decide) rfl (by decide)
  obtain ⟨s, hs, hst, hl, hp⟩ := C2_model_validation_amended.2 envHappy ⟨some ["data:x"], some "grok", none, none⟩
    ["data:x"] "grok" rfl (by decide) rfl (by decide)
  exact ⟨hA, hst⟩

/-- Every slide produced by the try body of the route.js loop carries the
generated context message/caption verbatim. -/
theorem processOneV2Try_msg (env : Env) (model img b : String)
    (hr : resolveBase64 env img = .ok b) (s : SlideV2)
    (h : processOneV2Try env model img = .ok s) :
    s.originalMessage = (generateImageContext env model b).message ∧
    s.originalCaption = (generateImageContext env model b).caption := by
  unfold processOneV2Try at h
  rw [hr] at h
  simp only [] at h
  split_ifs at h <;>
    first
      | exact Except.noConfusion h
      | (obtain rfl := (Except.ok.inj h).symm; exact ⟨rfl, rfl⟩)

/-- C3 (amended): the route.js handler ignores request-supplied
`messages`/`captions` entirely — the response is unchanged whatever those
fields contain; a slide's `originalMessage`/`originalCaption` are the
server-generated context values (from a quick AI description of the image)
on normal slides, and empty strings on catch-branch slides, also when the
image itself fails to resolve. -/
theorem C3_message_caption_amended :
    (∀ (env : Env) (req : SlideRequest) (M C : Option (List String)),
      POSTroute env (.ok { req with messages := M, captions := C }) = POSTroute env (.ok req)) ∧
    (∀ (env : Env) (model img b : String), resolveBase64 env img = .ok b →
      (((processOneV2 env model img).originalMessage = (generateImageContext env model b).message ∧
        (processOneV2 env model img).originalCaption = (generateImageContext env model b).caption) ∨
       ((processOneV2 env model img).originalMessage = "" ∧
        (processOneV2 env model img).originalCaption = ""))) ∧
    (∀ (env : Env) (model img : String) (e : JsError), resolveBase64 env img = .error e →
      (processOneV2 env model img).originalMessage = "" ∧
      (processOneV2 env model img).originalCaption = "") := by
  refine ⟨fun env req M C => rfl, ?_, ?_⟩
  · intro env model img b hr
    cases ht : processOneV2Try env model img with
    | error e => right; simp [processOneV2, ht, catchSlideV2]
    | ok s =>
      left
      have hm := processOneV2Try_msg env model img b hr s ht
      simp [processOneV2, ht, hm.1, hm.2]
  · intro env model img e hr
    have ht : processOneV2Try env model img = .error e := by
      unfold processOneV2Try
      rw [hr]
    simp [processOneV2, ht, catchSlideV2]

/-- C3 counterexample: a request supplying `messages[0] = "hello"` and
`captions[0] = "world"` receives a slide whose `originalMessage` and
`originalCaption` are the AI-generated context strings, not the supplied
ones. -/
theorem C3_message_caption_counterexample :
    POSTroute envHappy (.ok ⟨some ["data:img"], some "openai", some ["hello"], some ["world"]⟩) =
      .success [⟨"Red Bicycle", "- Leaning against brick\n- Suggests urban setting",
        "A red bicycle leaning against a brick wall.",
        "Let\x27s explore the details and significance of this A red bicycle...",
        "A red bicycle."⟩] ∧
    "Let\x27s explore the details and significance of this A red bicycle..." ≠ "hello" ∧
    "A red bicycle." ≠ "world" := by
  exact ⟨rfl, by decide, by decide⟩

/-- C3 witness: the amended claim applied to a concrete data-URL image. -/
theorem C3_message_caption_witness :
    ((processOneV2 envHappy "openai" "data:img").originalMessage =
        (generateImageContext envHappy "openai" "data:img").message ∧
      (processOneV2 envHappy "openai" "data:img").originalCaption =
        (generateImageContext envHappy "openai" "data:img").caption) ∨
    ((processOneV2 envHappy "openai" "data:img").originalMessage = "" ∧
      (processOneV2 envHappy "openai" "data:img").originalCaption = "") := by
  exact C3_message_caption_amended.2.1 envHappy "openai" "data:img" "data:img" rfl

/-- C4 (amended): in the part_001 handler, an explain result starting with
"Error" yields the slide {"Error Processing Image", retry-guidance content,
fullExplanation = the raw error} in that slot while every other slot still
receives its normal slide; in the live route.js handler no such sentinel
check exists on the OpenAI path — the sentinel text flows into the
summarize step and the slide is built from the resulting summary. -/
theorem C4_explain_sentinel_amended :
    (∀ (env : Env) (model img expl : String),
      explainStepV1 env model img = .ok expl → strStartsWith expl "Error" = true →
      processOneV1 env model img =
        ⟨"Error Processing Image", errContentV1, expl⟩ ∧
      (∀ (req : SlideRequest) (images : List String) (i : Nat),
        req.images = some images → images.length ≠ 0 →
        req.model.getD "openai" = model → validModels.contains model = true →
        images[i]? = some img →
        ∃ slides, POSTv1 env (.ok req) = .success slides ∧
          slides.length = images.length ∧
          slides[i]? = some ⟨"Error Processing Image", errContentV1, expl⟩ ∧
          ∀ j : Nat, j ≠ i → slides[j]? = (images[j]?).map (processOneV1 env model))) ∧
    (∀ (env : Env) (img msg cap e : String),
      env.openaiExplainApi img = .ok (some e) → strStartsWith e "Error" = true →
      processImageWithOpenAI env img msg cap =
        ⟨extractTitle (summarizeWithOpenAIRoute env e msg cap),
         extractContent (summarizeWithOpenAIRoute env e msg cap), e, msg, cap⟩) := by
  constructor
  · intro env model img expl h1 h2
    have hslide : processOneV1 env model img =
        ⟨"Error Processing Image", errContentV1, expl⟩ := by
      simp [processOneV1, h1, h2]
    refine ⟨hslide, ?_⟩
    intro req images i hri hlen hmod hval hidx
    have e1 := POSTv1_valid_success env req images model hri hlen hmod hval
    refine ⟨_, e1, by simp, ?_, fun j _ => by simp⟩
    simp [hidx, hslide]
  · intro env img msg cap e h1 h2
    simp [processImageWithOpenAI, explainWithOpenAI, h1]

/-- C4 counterexample: in the live route.js handler, an OpenAI explain
failure (sentinel "Error generating explanation") still produces a normally
titled slide ("Red Bicycle"), not an "Error Processing Image" slide. -/
theorem C4_explain_sentinel_counterexample :
    strStartsWith (explainWithOpenAI (envExplainFail.openaiExplainApi "data:x")) "Error" = true ∧
    POSTroute envExplainFail (.ok ⟨some ["data:x"], some "openai", none, none⟩) =
      .success [⟨"Red Bicycle", "- Leaning", "Error generating explanation",
        "Let\x27s explore the details and significance of this A red bicycle...",
        "A red bicycle."⟩] ∧
    ("Red Bicycle" : String) ≠ "Error Processing Image" := by
  exact ⟨by decide, rfl, by decide⟩

/-- C4 witness: the amended claim applied to a concrete failing explain
call in the part_001 handler. -/
theorem C4_explain_sentinel_witness :
    explainStepV1 envExplainFail "openai" "data:x" = .ok "Error generating explanation" ∧
    processOneV1 envExplainFail "openai" "data:x" =
      ⟨"Error Processing Image", errContentV1, "Error generating explanation"⟩ := by
  refine ⟨rfl, ?_⟩
  exact (C4_explain_sentinel_amended.1 envExplainFail "openai" "data:x" "Error generating explanation"
    rfl (by decide)).1

/-- C5 (amended): in the part_001 handler, a successful explain followed by
a summarize result starting with "Error" yields the slide
{"Error Creating Slide", fixed content, fullExplanation = the successful
explanation} in that slot while every other slot still receives its normal
slide; the live route.js handler has no "Error Creating Slide" path — on
its OpenAI pipeline the summary string is parsed as an ordinary summary
whatever its prefix. -/
theorem C5_summarize_sentinel_amended :
    (∀ (env : Env) (model img expl smry : String),
      explainStepV1 env model img = .ok expl →
      strStartsWith expl "Error" = false → expl ≠ "No explanation generated" →
      summarizeStepV1 env model expl = .ok smry → strStartsWith smry "Error" = true →
      processOneV1 env model img = ⟨"Error Creating Slide", errCreatingContentV1, expl⟩ ∧
      (∀ (req : SlideRequest) (images : List String) (i : Nat),
        req.images = some images → images.length ≠ 0 →
        req.model.getD "openai" = model → validModels.contains model = true →
        images[i]? = some img →
        ∃ slides, POSTv1 env (.ok req) = .success slides ∧
          slides.length = images.length ∧
          slides[i]? = some ⟨"Error Creating Slide", errCreatingContentV1, expl⟩ ∧
          ∀ j : Nat, j ≠ i → slides[j]? = (images[j]?).map (processOneV1 env model))) ∧
    (∀ (env : Env) (img msg cap e s : String),
      env.openaiExplainApi img = .ok (some e) →
      env.openaiSummarizeStream e msg cap = .ok s →
      processImageWithOpenAI env img msg cap =
        ⟨extractTitle s, extractContent s, e, msg, cap⟩) := by
  constructor
  · intro env model img expl smry h1 h2 h3 h4 h5
    have hslide : processOneV1 env model img =
        ⟨"Error Creating Slide", errCreatingContentV1, expl⟩ := by
      simp [processOneV1, h1, h2, h3, h4, h5]
    refine ⟨hslide, ?_⟩
    intro req images i hri hlen hmod hval hidx
    have e1 := POSTv1_valid_success env req images model hri hlen hmod hval
    refine ⟨_, e1, by simp, ?_, fun j _ => by simp⟩
    simp [hidx, hslide]
  · intro env img msg cap e s h1 h2
    simp [processImageWithOpenAI, explainWithOpenAI, summarizeWithOpenAIRoute, h1, h2]

/-- C5 counterexample: in the live route.js handler a summarize result
starting with "Error" produces a slide titled "Untitled Slide" carrying the
sentinel as content — not an "Error Creating Slide" slide. -/
theorem C5_summarize_sentinel_counterexample :
    strStartsWith "Error: vendor refused" "Error" = true ∧
    POSTroute envSumSentinel (.ok ⟨some ["data:x"], some "openai", none, none⟩) =
      .success [⟨"Untitled Slide", "Error: vendor refused", "A fine explanation.",
        "Let\x27s explore the details and significance of this A red bicycle...",
        "A red bicycle."⟩] ∧
    ("Untitled Slide" : String) ≠ "Error Creating Slide" := by
  exact ⟨by decide, rfl, by decide⟩

/-- C5 witness: the amended claim applied to a concrete sentinel-returning
summarize call in the part_001 handler. -/
theorem C5_summarize_sentinel_witness :
    summarizeStepV1 envSumSentinel "openai" "A fine explanation." = .ok "Error: vendor refused" ∧
    processOneV1 envSumSentinel "openai" "data:x" =
      ⟨"Error Creating Slide", errCreatingContentV1, "A fine explanation."⟩ := by
  refine ⟨rfl, ?_⟩
  exact (C5_summarize_sentinel_amended.1 envSumSentinel "openai" "data:x" "A fine explanation."
    "Error: vendor refused" rfl (by decide) (by decide) rfl (by decide)).1

/-- C6: when the Gemini explain result starts with the Gemini-specific
sentinel "Error analyzing image with Gemini:", route.js substitutes the
OpenAI adapter for the whole explain+summarize pair for that image, and
when the OpenAI calls succeed the slide is built from the OpenAI
summary (so it carries a non-error title/content whenever the summary
parses to one). -/
theorem C6_gemini_fallback (env : Env) (img msg cap : String)
    (h : strStartsWith (analyzeImageWithGemini env img) "Error analyzing image with Gemini:" = true) :
    processImageWithGemini env img msg cap = processImageWithOpenAI env img msg cap ∧
    (∀ e s : String, env.openaiExplainApi img = .ok (some e) →
      env.openaiSummarizeStream e msg cap = .ok s →
      processImageWithGemini env img msg cap =
        ⟨extractTitle s, extractContent s, e, msg, cap⟩) := by
  have hfb : processImageWithGemini env img msg cap = processImageWithOpenAI env img msg cap := by
    simp [processImageWithGemini, h]
  refine ⟨hfb, ?_⟩
  intro e s h1 h2
  rw [hfb]
  simp [processImageWithOpenAI, explainWithOpenAI, summarizeWithOpenAIRoute, h1, h2]

/-- C6 witness: with the Google key absent, Gemini explain fails with its
sentinel and the OpenAI fallback produces the normally titled slide. -/
theorem C6_gemini_fallback_witness :
    strStartsWith (analyzeImageWithGemini envHappy "data:x") "Error analyzing image with Gemini:" = true ∧
    processImageWithGemini envHappy "data:x" "m" "c" =
      ⟨extractTitle "# Red Bicycle\n- Leaning against brick\n- Suggests urban setting",
       extractContent "# Red Bicycle\n- Leaning against brick\n- Suggests urban setting",
       "A red bicycle leaning against a brick wall.", "m", "c"⟩ ∧
    (processImageWithGemini envHappy "data:x" "m" "c").title = "Red Bicycle" ∧
    ("Red Bicycle" : String) ≠ "Error Processing Image" := by
  have h := C6_gemini_fallback envHappy "data:x" "m" "c" (by decide)
  exact ⟨by decide, h.2 _ _ rfl rfl, by decide, by decide⟩

/-- C10: every slide emitted by the per-image catch branch of the route.js
POST handler has empty `originalMessage` and `originalCaption` (and the
"Error Processing Image" title), even though the generated context message
and caption are never empty strings. -/
theorem C10_catch_blanks_context (env : Env) (model img : String) (e : JsError)
    (h : processOneV2Try env model img = .error e) :
    (processOneV2 env model img).originalMessage = "" ∧
    (processOneV2 env model img).originalCaption = "" ∧
    (processOneV2 env model img).title = "Error Processing Image" ∧
    (∀ m i : String, (generateImageContext env m i).message ≠ "" ∧
      (generateImageContext env m i).caption ≠ "") := by
  refine ⟨by simp [processOneV2, h, catchSlideV2], by simp [processOneV2, h, catchSlideV2],
    by simp [processOneV2, h, catchSlideV2], ?_⟩
  intro m i
  constructor
  · intro hme
    have := congrArg String.data hme
    simp [generateImageContext, String.data_append] at this
  · intro hce
    have := congrArg String.data hce
    simp [generateImageContext, String.data_append] at this

/-- C10 witness: a fetch failure lands in the catch branch and the emitted
slide carries empty message/caption. -/
theorem C10_catch_blanks_context_witness :
    processOneV2Try envExplainFail "openai" "plain" = .error ⟨"fetch failed", none⟩ ∧
    (processOneV2 envExplainFail "openai" "plain").originalMessage = "" ∧
    (processOneV2 envExplainFail "openai" "plain").originalCaption = "" := by
  refine ⟨rfl, ?_, ?_⟩
  · exact (C10_catch_blanks_context envExplainFail "openai" "plain" ⟨"fetch failed", none⟩ rfl).1
  · exact (C10_catch_blanks_context envExplainFail "openai" "plain" ⟨"fetch failed", none⟩ rfl).2.1

theorem listIsPrefix_iff (p s : List Char) :
    listIsPrefix p s = true ↔ ∃ t, s = p ++ t := by
  constructor
  · intro h
    induction p generalizing s with
    | nil => exact ⟨s, rfl⟩
    | cons c cs ih =>
      cases s with
      | nil => simp [listIsPrefix] at h
      | cons d ds =>
        simp only [listIsPrefix, Bool.and_eq_true, decide_eq_true_eq] at h
        obtain ⟨t, ht⟩ := ih ds h.2
        exact ⟨t, by simp [h.1, ht]⟩
  · rintro ⟨t, rfl⟩
    exact listIsPrefix_self_append p t

theorem mem_takeWhile_sat {p : Char → Bool} {l : List Char} {c : Char}
    (h : c ∈ l.takeWhile p) : p c = true := by
  induction l with
  | nil => simp [List.takeWhile] at h
  | cons d ds ih =>
    by_cases hd : p d = true
    · rw [List.takeWhile_cons_of_pos hd] at h
      rcases List.mem_cons.mp h with rfl | hm
      · exact hd
      · exact ih hm
    · rw [List.takeWhile_cons_of_neg hd] at h
      simp at h

theorem takeWhile_stops_at (m rest : List Char) (hm : ∀ c ∈ m, ¬c = ';') :
    (m ++ ';' :: rest).takeWhile (fun c => !(c = ';' : Bool)) = m ∧
    (m ++ ';' :: rest).drop m.length = ';' :: rest := by
  constructor
  · induction m with
    | nil => simp [List.takeWhile]
    | cons c cs ih =>
      have hc : ¬c = ';' := hm c (by simp)
      simp [List.cons_append, List.takeWhile_cons, hc]
      exact ih (fun x hx => hm x (by simp [hx]))
  · exact List.drop_left m (';' :: rest)

theorem listHasSub_of_isPrefix (p s : List Char) (h : listIsPrefix p s = true) :
    listHasSub p s = true := by
  cases s with
  | nil =>
    cases p with
    | nil => rfl
    | cons c cs => simp [listIsPrefix] at h
  | cons c rest => simp [listHasSub, h]

theorem listHasSub_of_parts (a p b : List Char) :
    listHasSub p (a ++ (p ++ b)) = true := by
  induction a with
  | nil =>
    simp only [List.nil_append]
    exact listHasSub_of_isPrefix p (p ++ b) (listIsPrefix_self_append p b)
  | cons c as ih =>
    simp [List.cons_append, listHasSub, ih]

theorem takeWhile_drop_split (p : Char → Bool) (t : List Char) :
    t.takeWhile p ++ t.drop (t.takeWhile p).length = t := by
  induction t with
  | nil => simp
  | cons c cs ih =>
    by_cases hc : p c = true
    · simp [List.takeWhile_cons, hc, ih]
    · simp [List.takeWhile_cons, hc]

theorem matchDataUrlRegex_sound (cs : List Char) (mime payload : List Char)
    (h : matchDataUrlRegex cs = some (mime, payload)) :
    cs = "data:".data ++ mime ++ ";base64,".data ++ payload ∧ mime ≠ [] ∧
    (∀ c ∈ mime, ¬c = ';') ∧ payload ≠ [] ∧ (∀ c ∈ payload, isLineTerm c = false) := by
  unfold matchDataUrlRegex at h
  by_cases h1 : listIsPrefix ("data:".data) cs = true
  · rw [if_pos h1] at h
    simp only [] at h
    by_cases h2 : ((cs.drop 5).takeWhile (fun c => !(c = ';' : Bool))).length = 0
    · rw [if_pos h2] at h
      exact absurd h (by simp)
    · rw [if_neg h2] at h
      by_cases h3 : listIsPrefix (";base64,".data)
          ((cs.drop 5).drop ((cs.drop 5).takeWhile (fun c => !(c = ';' : Bool))).length) = true
      · rw [if_pos h3] at h
        by_cases h4 : ((((cs.drop 5).drop
              ((cs.drop 5).takeWhile (fun c => !(c = ';' : Bool))).length).drop 8).length ≥ 1 &&
            (((cs.drop 5).drop
              ((cs.drop 5).takeWhile (fun c => !(c = ';' : Bool))).length).drop 8).all
              (fun c => !(isLineTerm c))) = true
        · rw [if_pos h4] at h
          simp only [Option.some.injEq, Prod.mk.injEq] at h
          obtain ⟨hm, hp⟩ := h
          obtain ⟨t, rfl⟩ := (listIsPrefix_iff _ _).mp h1
          have hdrop : ("data:".data ++ t).drop 5 = t := List.drop_left "data:".data t
          rw [hdrop] at hm hp h2 h3 h4
          obtain ⟨u, hu⟩ := (listIsPrefix_iff _ _).mp h3
          have hsplit : t.takeWhile (fun c => !(c = ';' : Bool)) ++
              t.drop (t.takeWhile (fun c => !(c = ';' : Bool))).length = t :=
            takeWhile_drop_split _ t
          have h8 : (";base64,".data ++ u).drop 8 = u := List.drop_left ";base64,".data u
          have hpay : (t.drop (t.takeWhile (fun c => !(c = ';' : Bool))).length).drop 8
              = payload := hp
          rw [hu, h8] at hpay
          rw [hu] at h4
          rw [h8] at h4
          refine ⟨?_, ?_, ?_, ?_, ?_⟩
          · rw [← hm, ← hpay]
            conv_rhs => rw [List.append_assoc, List.append_assoc, ← hu, hsplit]
          · intro hnil
            rw [← hm] at hnil
            rw [hnil] at h2
            simp at h2
          · intro c hc
            rw [← hm] at hc
            have := mem_takeWhile_sat hc
            simpa using this
          · intro hnil
            rw [← hpay] at hnil
            rw [hnil] at h4
            simp at h4
          · intro c hc
            rw [← hpay] at hc
            have := (List.all_eq_true.mp ((Bool.and_eq_true _ _).mp h4).2) c hc
            simpa using this
        · rw [if_neg h4] at h
          exact absurd h (by simp)
      · rw [if_neg h3] at h
        exact absurd h (by simp)
  · rw [if_neg h1] at h
    exact absurd h (by simp)

theorem matchDataUrlRegex_complete (mime payload : List Char)
    (hm : mime ≠ []) (hmc : ∀ c ∈ mime, ¬c = ';') (hp : payload ≠ [])
    (hpc : ∀ c ∈ payload, isLineTerm c = false) :
    matchDataUrlRegex ("data:".data ++ mime ++ ";base64,".data ++ payload) =
      some (mime, payload) := by
  have hshape : "data:".data ++ mime ++ ";base64,".data ++ payload =
      "data:".data ++ (mime ++ ';' :: ("base64,".data ++ payload)) := by
    simp [List.append_assoc]
  rw [hshape]
  unfold matchDataUrlRegex
  have h1 : listIsPrefix "data:".data
      ("data:".data ++ (mime ++ ';' :: ("base64,".data ++ payload))) = true :=
    listIsPrefix_self_append _ _
  rw [if_pos h1]
  have hlen5 : ("data:".data).length = 5 := rfl
  have hdrop5 : ("data:".data ++ (mime ++ ';' :: ("base64,".data ++ payload))).drop 5 =
      mime ++ ';' :: ("base64,".data ++ payload) := by
    rw [← hlen5]
    exact List.drop_left _ _
  rw [hdrop5]
  simp only []
  have hTW := (takeWhile_stops_at mime ("base64,".data ++ payload) hmc).1
  have hDR := (takeWhile_stops_at mime ("base64,".data ++ payload) hmc).2
  rw [hTW, hDR]
  have h2 : ¬(mime.length = 0) := by simpa using hm
  rw [if_neg h2]
  have hsemi : (';' :: ("base64,".data ++ payload)) = ";base64,".data ++ payload := rfl
  have h3 : listIsPrefix ";base64,".data (';' :: ("base64,".data ++ payload)) = true := by
    rw [hsemi]
    exact listIsPrefix_self_append _ _
  rw [if_pos h3]
  have h8 : (';' :: ("base64,".data ++ payload)).drop 8 = payload := by
    rw [hsemi]
    have hl : (";base64,".data).length = 8 := rfl
    rw [← hl]
    exact List.drop_left _ _
  rw [h8]
  have h4 : (payload.length ≥ 1 && payload.all (fun c => !(isLineTerm c))) = true := by
    have hlp : payload.length ≥ 1 := by
      cases payload with
      | nil => exact absurd rfl hp
      | cons c cs => simp
    simp only [hlp, List.all_eq_true, Bool.and_eq_true, Bool.not_eq_true', decide_eq_true_eq,
      ge_iff_le, true_and, and_true, Bool.true_and]
    exact hpc
  rw [if_pos h4]

/-- C9 (amended): `extractBase64FromDataUrl` returns (null, null) for the
empty string; returns the input unchanged as payload with media type
"image/jpeg" for every non-empty input without ";base64,"; returns the
declared media type and payload for every well-formed data URL (the
`^data:([^;]+);base64,(.+)$` shape); and throws the hard error
"Invalid data URL format" for every input containing ";base64," that does
not match that shape. -/
theorem C9_extract_base64_amended (s : String) :
    (s = "" → extractBase64FromDataUrl s = .ok (none, none)) ∧
    (s ≠ "" → sContains s ";base64," = false →
      extractBase64FromDataUrl s = .ok (some s, some "image/jpeg")) ∧
    (∀ mime payload : List Char,
      s.data = "data:".data ++ mime ++ ";base64,".data ++ payload → mime ≠ [] →
      (∀ c ∈ mime, ¬c = ';') → payload ≠ [] → (∀ c ∈ payload, isLineTerm c = false) →
      extractBase64FromDataUrl s = .ok (some (String.mk payload), some (String.mk mime))) ∧
    (sContains s ";base64," = true →
      (¬ ∃ mime payload : List Char,
        s.data = "data:".data ++ mime ++ ";base64,".data ++ payload ∧ mime ≠ [] ∧
        (∀ c ∈ mime, ¬c = ';') ∧ payload ≠ [] ∧ (∀ c ∈ payload, isLineTerm c = false)) →
      extractBase64FromDataUrl s = .error "Invalid data URL format") := by
  refine ⟨?_, ?_, ?_, ?_⟩
  · rintro rfl
    rfl
  · intro hne hnc
    simp [extractBase64FromDataUrl, hne, hnc]
  · intro mime payload hdata hm hmc hp hpc
    have hne : s ≠ "" := by
      intro he
      rw [he] at hdata
      simp [String.data] at hdata
    have hcont : sContains s ";base64," = true := by
      unfold sContains
      rw [hdata]
      have : "data:".data ++ mime ++ ";base64,".data ++ payload =
          ("data:".data ++ mime) ++ (";base64,".data ++ payload) := by
        simp [List.append_assoc]
      rw [this]
      exact listHasSub_of_parts _ _ _
    have hmatch : matchDataUrlRegex s.data = some (mime, payload) := by
      rw [hdata]
      exact matchDataUrlRegex_complete mime payload hm hmc hp hpc
    simp [extractBase64FromDataUrl, hne, hcont, hmatch]
  · intro hcont hno
    have hnone : matchDataUrlRegex s.data = none := by
      cases hmr : matchDataUrlRegex s.data with
      | none => rfl
      | some mp =>
        obtain ⟨mime, payload⟩ := mp
        obtain ⟨hd, hm, hmc, hp, hpc⟩ := matchDataUrlRegex_sound s.data mime payload hmr
        exact absurd ⟨mime, payload, hd, hm, hmc, hp, hpc⟩ hno
    have hne : s ≠ "" := by
      rintro rfl
      simp [sContains, listHasSub] at hcont
    simp [extractBase64FromDataUrl, hne, hcont, hnone]

/-- C9 counterexample: the claim quantifies over every input string, but
the empty string (which does not contain ";base64,") yields null payload
and null media type, not the input with "image/jpeg". -/
theorem C9_extract_base64_counterexample :
    extractBase64FromDataUrl "" = .ok (none, none) ∧
    sContains "" ";base64," = false ∧
    ((none : Option String), (none : Option String)) ≠ (some "", some "image/jpeg") := by
  exact ⟨rfl, by decide, by decide⟩

/-- C9 witness: the amended claim applied to a raw payload string and to a
well-formed data URL. -/
theorem C9_extract_base64_witness :
    extractBase64FromDataUrl "abc" = .ok (some "abc", some "image/jpeg") ∧
    extractBase64FromDataUrl "data:image/png;base64,AAAA" =
      .ok (some "AAAA", some "image/png") := by
  constructor
  · exact (C9_extract_base64_amended "abc").2.1 (by decide) (by decide)
  · exact (C9_extract_base64_amended "data:image/png;base64,AAAA").2.2.1 "image/png".data "AAAA".data
      (by decide) (by decide) (by decide) (by decide) (by decide)

theorem matchableFrom_nil (ls : Bool) (n : Nat) : matchableFrom ls [] n = false := by
  simp [matchableFrom]

theorem matchableFrom_cons_succ (ls : Bool) (c : Char) (cs : List Char) (n : Nat) :
    matchableFrom ls (c :: cs) (n + 1) = matchableFrom (isLineTerm c) cs n := by
  unfold matchableFrom
  cases n with
  | zero => simp
  | succ m => simp

theorem matchableFrom_cons_zero (ls : Bool) (c : Char) (cs : List Char) :
    matchableFrom ls (c :: cs) 0 = (ls && decide (c = '#') && (tryAt cs).isSome) := by
  simp [matchableFrom]

theorem scanMatch_none (cs : List Char) (ls : Bool) (h : scanMatch cs ls = none) :
    ∀ n, matchableFrom ls cs n = false := by
  induction cs generalizing ls with
  | nil => intro n; exact matchableFrom_nil ls n
  | cons c rest ih =>
    rw [scanMatch] at h
    intro n
    by_cases hcond : (ls && decide (c = '#')) = true
    · rw [if_pos hcond] at h
      cases hta : tryAt rest with
      | some pr =>
        rw [hta] at h
        obtain ⟨cap, aft⟩ := pr
        exact absurd h (by simp)
      | none =>
        rw [hta] at h
        cases hsm : scanMatch rest (isLineTerm c) with
        | some trip =>
          rw [hsm] at h
          obtain ⟨bef, cap, aft⟩ := trip
          exact absurd h (by simp)
        | none =>
          cases n with
          | zero => simp [matchableFrom_cons_zero, hta]
          | succ m =>
            rw [matchableFrom_cons_succ]
            exact ih (isLineTerm c) hsm m
    · rw [if_neg hcond] at h
      cases hsm : scanMatch rest (isLineTerm c) with
      | some trip =>
        rw [hsm] at h
        obtain ⟨bef, cap, aft⟩ := trip
        exact absurd h (by simp)
      | none =>
        cases n with
        | zero =>
          rw [matchableFrom_cons_zero]
          have hfalse : (ls && decide (c = '#')) = false := by
            rcases Bool.eq_false_or_eq_true (ls && decide (c = '#')) with ht | hf
            · exact absurd (Bool.and_eq_true _ _ |>.mp ht) (by simpa using hcond)
            · exact hf
          rw [hfalse, Bool.false_and]
        | succ m =>
          rw [matchableFrom_cons_succ]
          exact ih (isLineTerm c) hsm m

theorem scanMatch_some (cs : List Char) (ls : Bool) (bef cap aft : List Char)
    (h : scanMatch cs ls = some (bef, cap, aft)) :
    (∃ rest, cs = bef ++ '#' :: rest ∧ tryAt rest = some (cap, aft)) ∧
    matchableFrom ls cs bef.length = true ∧
    ∀ m, m < bef.length → matchableFrom ls cs m = false := by
  induction cs generalizing ls bef cap aft with
  | nil => simp [scanMatch] at h
  | cons c rest ih =>
    rw [scanMatch] at h
    by_cases hcond : (ls && decide (c = '#')) = true
    · rw [if_pos hcond] at h
      cases hta : tryAt rest with
      | some pr =>
        obtain ⟨cap0, aft0⟩ := pr
        rw [hta] at h
        simp only [Option.some.injEq, Prod.mk.injEq] at h
        obtain ⟨hb, hc, ha⟩ := h
        subst hb
        subst hc
        subst ha
        have hc' : c = '#' := by
          have := (Bool.and_eq_true _ _).mp hcond
          simpa using this.2
        refine ⟨⟨rest, by simp [hc'], hta⟩, ?_, ?_⟩
        · simp [matchableFrom_cons_zero, hcond, hta]
        · intro m hm
          simp at hm
      | none =>
        rw [hta] at h
        cases hsm : scanMatch rest (isLineTerm c) with
        | none =>
          rw [hsm] at h
          exact absurd h (by simp)
        | some trip =>
          obtain ⟨bef', cap', aft'⟩ := trip
          rw [hsm] at h
          simp only [Option.some.injEq, Prod.mk.injEq] at h
          obtain ⟨hb, hc, ha⟩ := h
          subst hc
          subst ha
          subst hb
          obtain ⟨⟨rest', hrest', htry⟩, hmt, hmin⟩ := ih (isLineTerm c) bef' cap' aft' hsm
          refine ⟨⟨rest', by simp [hrest'], htry⟩, ?_, ?_⟩
          · simpa [matchableFrom_cons_succ] using hmt
          · intro m hm
            cases m with
            | zero => simp [matchableFrom_cons_zero, hta]
            | succ k =>
              rw [matchableFrom_cons_succ]
              exact hmin k (by simpa using hm)
    · rw [if_neg hcond] at h
      cases hsm : scanMatch rest (isLineTerm c) with
      | none =>
        rw [hsm] at h
        exact absurd h (by simp)
      | some trip =>
        obtain ⟨bef', cap', aft'⟩ := trip
        rw [hsm] at h
        simp only [Option.some.injEq, Prod.mk.injEq] at h
        obtain ⟨hb, hc, ha⟩ := h
        subst hc
        subst ha
        subst hb
        obtain ⟨⟨rest', hrest', htry⟩, hmt, hmin⟩ := ih (isLineTerm c) bef' cap' aft' hsm
        refine ⟨⟨rest', by simp [hrest'], htry⟩, ?_, ?_⟩
        · simpa [matchableFrom_cons_succ] using hmt
        · intro m hm
          cases m with
          | zero =>
            rw [matchableFrom_cons_zero]
            have hfalse : (ls && decide (c = '#')) = false := by
              rcases Bool.eq_false_or_eq_true (ls && decide (c = '#')) with ht | hf
              · exact absurd ht hcond
              · exact hf
            rw [hfalse, Bool.false_and]
          | succ k =>
            rw [matchableFrom_cons_succ]
            exact hmin k (by simpa using hm)

theorem take_append_self (bef t : List Char) : (bef ++ t).take bef.length = bef := by
  induction bef with
  | nil => simp
  | cons x xs ih => simp [ih]

theorem drop_append_cons (bef : List Char) (c : Char) (rest : List Char) :
    (bef ++ c :: rest).drop (bef.length + 1) = rest := by
  induction bef with
  | nil => simp
  | cons x xs ih => simp [ih]

/-- C7: `parseSummary`/`extractTitle`/`extractContent` implement the first
match of the multiline regex `^#\s*(.+)$`: when no position of the input
can start a match, the title is "Untitled Slide" and the content is the
whole trimmed input; when `n` is the least position starting a match (a
line start holding `#`), the title is the trimmed capture group and the
content is the input with the matched substring removed (the characters
before the match and the characters after it), trimmed. -/
theorem C7_parse_summary (s : String) :
    parseSummary s = (extractTitle s, extractContent s) ∧
    ((∀ n : Nat, matchableFrom true s.data n = false) →
      extractTitle s = "Untitled Slide" ∧ extractContent s = String.mk (jsTrim s.data)) ∧
    (∀ n : Nat, matchableFrom true s.data n = true →
      (∀ m, m < n → matchableFrom true s.data m = false) →
      ∃ cap aft : List Char,
        tryAt (s.data.drop (n + 1)) = some (cap, aft) ∧
        s.data = s.data.take n ++ '#' :: s.data.drop (n + 1) ∧
        extractTitle s = String.mk (jsTrim cap) ∧
        extractContent s = String.mk (jsTrim (s.data.take n ++ aft))) := by
  refine ⟨rfl, ?_, ?_⟩
  · intro hall
    cases hsm : scanMatch s.data true with
    | some trip =>
      obtain ⟨bef, cap, aft⟩ := trip
      have hmt := (scanMatch_some s.data true bef cap aft hsm).2.1
      rw [hall bef.length] at hmt
      exact absurd hmt (by simp)
    | none =>
      constructor
      · simp [extractTitle, hsm]
      · simp [extractContent, hsm]
  · intro n hn hmin
    cases hsm : scanMatch s.data true with
    | none =>
      have := scanMatch_none s.data true hsm n
      rw [hn] at this
      exact absurd this (by simp)
    | some trip =>
      obtain ⟨bef, cap, aft⟩ := trip
      obtain ⟨⟨rest, hr, htry⟩, hmt, hminB⟩ := scanMatch_some s.data true bef cap aft hsm
      have hlen : bef.length = n := by
        rcases Nat.lt_trichotomy bef.length n with hlt | heq | hgt
        · rw [hmin bef.length hlt] at hmt
          exact absurd hmt (by simp)
        · exact heq
        · rw [hminB n hgt] at hn
          exact absurd hn (by simp)
      have htake : s.data.take n = bef := by
        rw [← hlen, hr]
        exact take_append_self bef ('#' :: rest)
      have hdrop : s.data.drop (n + 1) = rest := by
        rw [← hlen, hr]
        exact drop_append_cons bef '#' rest
      refine ⟨cap, aft, ?_, ?_, ?_, ?_⟩
      · rw [hdrop]
        exact htry
      · rw [htake, hdrop]
        exact hr
      · simp [extractTitle, hsm]
      · simp [extractContent, hsm, htake]

/-- C7 witness: the characterization applied at the least matchable
position of the specification's own example summary. -/
theorem C7_parse_summary_witness :
    matchableFrom true ("# My Title\n- point one\n- point two").data 0 = true ∧
    extractTitle "# My Title\n- point one\n- point two" = "My Title" ∧
    extractContent "# My Title\n- point one\n- point two" = "- point one\n- point two" := by
  obtain ⟨cap, aft, htry, hdec, htit, hcon⟩ :=
    (C7_parse_summary "# My Title\n- point one\n- point two").2.2 0 (by decide)
      (fun m hm => absurd hm (by omega))
  have hconc : tryAt (("# My Title\n- point one\n- point two").data.drop (0 + 1)) =
      some ("My Title".data, "\n- point one\n- point two".data) := by decide
  have hinj := hconc.symm.trans htry
  simp only [Option.some.injEq, Prod.mk.injEq] at hinj
  obtain ⟨hcap, haft⟩ := hinj
  refine ⟨by decide, ?_, ?_⟩
  · rw [htit, ← hcap]
    decide
  · rw [hcon, ← haft]
    decide
